import Mathlib

/-!
Shallow embedding of the radiogaga chat relay (chat.go, env.go, main.go).

The embedding models the registry state (`Chat.users` / `Chat.radios`), the
connection handler (`HandleWS` handshake, registration with supersession,
read loop `handleClient`), the dispatcher (`dispatch`, `forwardToRadios`,
`forwardToUser`) and the serialized write helpers (`writeMessage`,
`writeControl`).  I/O effects (socket writes, closes, lock operations, map
mutations, log lines) are recorded as an explicit `Action` trace so that
ordering and locking claims can be stated.  The JWT library call inside
`verifyGEWISToken` is an external dependency and is modelled as an oracle
`parse : String → Option GEWISClaims`; the source-level check that an empty
token string is rejected before the library is ever consulted is kept.
Write failures are modelled by an oracle `wfail : Nat → Bool` on connection
identifiers, mirroring the `error` result of `conn.WriteMessage`.
-/

namespace RadioGaga

/-- Connection role, from the `role` query parameter ("user" or "radio"). -/
inductive Role where
  | user
  | radio
deriving DecidableEq, Repr

/-- Embeds `Client` (chat.go): `cid` models the pointer identity of the
`*Client` value, `role` and `id` are the corresponding struct fields.  The
`conn` and `writeMu` fields are modelled by the action trace. -/
structure Client where
  cid : Nat
  role : Role
  id : String
deriving DecidableEq, Repr

/-- Embeds `IncomingMessage` (chat.go). -/
structure IncomingMessage where
  token : String
  toId : String
  content : String
  radioKey : String
deriving DecidableEq, Repr

/-- Embeds `OutgoingMessage` (chat.go).  `fromId` is the `From` field. -/
structure OutgoingMessage where
  fromId : String
  givenName : String
  familyName : String
  toId : String
  content : String
deriving DecidableEq, Repr

/-- Embeds `GEWISClaims` (chat.go): the claims extracted from a verified
token. -/
structure GEWISClaims where
  lidnr : Nat
  givenName : String
  familyName : String
deriving DecidableEq, Repr

/-- Observable effects of the code, recorded in order of execution. -/
inductive Action where
  | lockRegistry
  | unlockRegistry
  | acquireWriteMu (cid : Nat)
  | releaseWriteMu (cid : Nat)
  | frameWrite (cid : Nat) (msg : OutgoingMessage)
  | pingWrite (cid : Nat)
  | closeWrite (cid : Nat) (code : Nat) (reason : String)
  | rawCloseWrite (code : Nat) (reason : String)
  | closeConn (cid : Nat)
  | rawCloseConn
  | logWarn (msg : String)
  | mapInsertUser (id : String) (cid : Nat)
  | mapInsertRadio (cid : Nat)
  | mapDeleteUser (id : String)
  | mapDeleteRadio (cid : Nat)
deriving DecidableEq, Repr

/-- Control frames passed to `writeControl`. -/
inductive CtrlMsg where
  | ping
  | closeMsg (code : Nat) (reason : String)
deriving DecidableEq, Repr

/-- The write performed by `conn.WriteControl` for a given control frame. -/
def ctrlAction (cid : Nat) : CtrlMsg → Action
  | .ping => .pingWrite cid
  | .closeMsg code reason => .closeWrite cid code reason

/-- Embeds the registry state of `Chat` (chat.go): `users` is the
`map[string]*Client` as an association list with unique keys, `radios` is
the `map[*Client]struct{}` as a list of clients with distinct `cid`s. -/
structure ChatState where
  users : List (String × Client)
  radios : List Client
deriving DecidableEq, Repr

/-- `NewChat` (chat.go): empty registry. -/
def NewChat : ChatState := ⟨[], []⟩

/-- Go map read `c.users[id]`. -/
def lookupUser (s : ChatState) (id : String) : Option Client :=
  (s.users.find? (fun p => p.1 == id)).map Prod.snd

/-- Go map write `c.users[id] = cl` (replaces any entry at the key). -/
def insertUser (s : ChatState) (id : String) (cl : Client) : ChatState :=
  { s with users := (id, cl) :: s.users.filter (fun p => p.1 != id) }

/-- Go map delete `delete(c.users, id)`. -/
def deleteUser (s : ChatState) (id : String) : ChatState :=
  { s with users := s.users.filter (fun p => p.1 != id) }

/-- Go map write `c.radios[cl] = struct{}{}` (keyed by pointer). -/
def insertRadio (s : ChatState) (cl : Client) : ChatState :=
  { s with radios := cl :: s.radios.filter (fun r => r.cid != cl.cid) }

/-- Go map delete `delete(c.radios, cl)` (keyed by pointer). -/
def deleteRadio (s : ChatState) (cl : Client) : ChatState :=
  { s with radios := s.radios.filter (fun r => r.cid != cl.cid) }

/-- Embeds `Client.writeMessage` (chat.go): takes the client's `writeMu`,
writes one data frame, releases the lock; returns the write error as a
`Bool` (`true` = failure) decided by the failure oracle. -/
def writeMessage (wfail : Nat → Bool) (cl : Client) (msg : OutgoingMessage) :
    List Action × Bool :=
  ([.acquireWriteMu cl.cid, .frameWrite cl.cid msg, .releaseWriteMu cl.cid],
   wfail cl.cid)

/-- Embeds `Client.writeControl` (chat.go): takes `writeMu`, writes one
control frame, releases. -/
def writeControl (wfail : Nat → Bool) (cl : Client) (m : CtrlMsg) :
    List Action × Bool :=
  ([.acquireWriteMu cl.cid, ctrlAction cl.cid m, .releaseWriteMu cl.cid],
   wfail cl.cid)

/-- Embeds `Chat.forwardToRadios` (chat.go): snapshot the radio set under
the registry lock, then write the serialized message to each snapshotted
radio outside the lock, discarding each write's error. -/
def forwardToRadios (wfail : Nat → Bool) (s : ChatState)
    (msg : OutgoingMessage) : ChatState × List Action :=
  let conns := s.radios
  (s, [Action.lockRegistry, Action.unlockRegistry]
      ++ conns.flatMap (fun cl => (writeMessage wfail cl msg).1))

/-- Embeds `Chat.forwardToUser` (chat.go): look up the target under the
registry lock, then (if found) write to it outside the lock, discarding the
write's error. -/
def forwardToUser (wfail : Nat → Bool) (s : ChatState) (userID : String)
    (msg : OutgoingMessage) : ChatState × List Action :=
  match lookupUser s userID with
  | some target =>
      (s, [Action.lockRegistry, Action.unlockRegistry]
          ++ (writeMessage wfail target msg).1)
  | none => (s, [Action.lockRegistry, Action.unlockRegistry])

/-- The `OutgoingMessage` constructed at the top of `Chat.dispatch`
(chat.go): identity and display fields come from the verified claims, `to`
and `content` from the incoming message. -/
def mkOutgoing (claims : GEWISClaims) (msg : IncomingMessage) :
    OutgoingMessage :=
  { fromId := Nat.repr claims.lidnr
    givenName := claims.givenName
    familyName := claims.familyName
    toId := msg.toId
    content := msg.content }

/-- Embeds `Chat.dispatch` (chat.go). -/
def dispatch (wfail : Nat → Bool) (s : ChatState) (client : Client)
    (msg : IncomingMessage) (claims : GEWISClaims) : ChatState × List Action :=
  let out := mkOutgoing claims msg
  if client.role = .user then
    forwardToRadios wfail s out
  else if out.toId = "" then
    (s, [])
  else
    forwardToUser wfail s out.toId out

/-- Embeds the registration critical section of `Chat.HandleWS`
(chat.go lines 139–155): under the registry lock, a user client first
closes any previous session at the same id with close code 4100 and then
installs itself; a radio client is added to the radio set. -/
def registerClient (wfail : Nat → Bool) (s : ChatState) (client : Client) :
    ChatState × List Action :=
  if client.role = .user then
    match lookupUser s client.id with
    | some prev =>
        (insertUser s client.id client,
         [Action.lockRegistry]
           ++ (writeControl wfail prev
                 (.closeMsg 4100 "replaced by new connection")).1
           ++ [Action.logWarn
                 "Closing replacing connection: replaced by new connection",
               Action.closeConn prev.cid,
               Action.mapInsertUser client.id client.cid,
               Action.unlockRegistry])
    | none =>
        (insertUser s client.id client,
         [Action.lockRegistry,
          Action.mapInsertUser client.id client.cid,
          Action.unlockRegistry])
  else
    (insertRadio s client,
     [Action.lockRegistry,
      Action.mapInsertRadio client.cid,
      Action.unlockRegistry])

/-- Embeds the deferred teardown of `Chat.handleClient` (chat.go lines
179–190): under the registry lock, delete `users[client.id]` for a user
role or remove the client from the radio set, then close the transport. -/
def unregister (s : ChatState) (client : Client) : ChatState × List Action :=
  if client.role = .user then
    (deleteUser s client.id,
     [Action.lockRegistry, Action.mapDeleteUser client.id,
      Action.unlockRegistry, Action.closeConn client.cid])
  else
    (deleteRadio s client,
     [Action.lockRegistry, Action.mapDeleteRadio client.cid,
      Action.unlockRegistry, Action.closeConn client.cid])

/-- Embeds `Chat.verifyGEWISToken` (chat.go): an empty token string is
rejected before the JWT library is consulted; otherwise the library call
(signature validation with the fixed HS512 algorithm plus claim
extraction) is the oracle `parse`. -/
def verifyGEWISToken (parse : String → Option GEWISClaims)
    (tok : String) : Option GEWISClaims :=
  if tok = "" then none else parse tok

/-- One inbound read on a connection: either the read itself errors, or it
yields bytes whose `json.Unmarshal` result is carried as an `Option`. -/
inductive Frame where
  | readErr
  | raw (decoded : Option IncomingMessage)
deriving DecidableEq, Repr

/-- Control-flow outcome of one iteration of the read loop in
`Chat.handleClient`: `exited` models `return`, `skipped` models
`continue`, `dispatched` models falling through to `c.dispatch`. -/
inductive StepOutcome where
  | exited
  | skipped
  | dispatched
deriving DecidableEq, Repr

/-- One iteration of the read loop body of `Chat.handleClient` (chat.go
lines 192–208): read error returns; JSON decode failure logs and
continues; per-message token verification failure logs and continues;
otherwise the frame is dispatched. -/
def loopStep (parse : String → Option GEWISClaims) (wfail : Nat → Bool)
    (s : ChatState) (client : Client) (f : Frame) :
    ChatState × List Action × StepOutcome :=
  match f with
  | .readErr => (s, [], .exited)
  | .raw none => (s, [.logWarn "invalid json"], .skipped)
  | .raw (some msg) =>
      match verifyGEWISToken parse msg.token with
      | none => (s, [.logWarn "invalid GEWIS token"], .skipped)
      | some claims =>
          let d := dispatch wfail s client msg claims
          (d.1, d.2, .dispatched)

/-- Embeds `Chat.handleClient` (chat.go): run the read loop over a list of
inbound frames, then run the deferred teardown (`unregister` and transport
close) exactly once when the loop exits. -/
def handleClient (parse : String → Option GEWISClaims) (wfail : Nat → Bool)
    (client : Client) (s : ChatState) : List Frame → ChatState × List Action
  | [] =>
      let u := unregister s client
      (u.1, u.2)
  | f :: rest =>
      let st := loopStep parse wfail s client f
      match st.2.2 with
      | .exited =>
          let u := unregister st.1 client
          (u.1, st.2.1 ++ u.2)
      | _ =>
          let h := handleClient parse wfail client st.1 rest
          (h.1, st.2.1 ++ h.2)

/-- One tick of the keepalive ping loop started by `Chat.HandleWS`
(chat.go lines 164–173): a ping control frame through the client's
serialized write helper. -/
def pingTick (wfail : Nat → Bool) (client : Client) : List Action × Bool :=
  writeControl wfail client .ping

/-- Models `strings.TrimSpace` (used by `HandleWS` only to test whether
the handshake frame carries data): drops leading and trailing whitespace
characters. -/
def trimSpace (s : String) : String :=
  String.mk
    (((s.data.dropWhile Char.isWhitespace).reverse.dropWhile
        Char.isWhitespace).reverse)

/-- Result of the handshake phase of `Chat.HandleWS`: the registry state
after the handler returns or hands off to the read loop, the action trace,
and the registered client (`none` when the handshake was rejected). -/
structure HsResult where
  state : ChatState
  acts : List Action
  client : Option Client
deriving DecidableEq, Repr

/-- Embeds the handshake phase of `Chat.HandleWS` (chat.go lines 75–162):
role validation, first-frame read and decode, token verification, the
radio admission-key gate, client construction, registration with
supersession, and the immediate dispatch of a content-bearing handshake
frame.  `cfgRadioKey` is the configured `RADIOChatKey`, `freshCid` the
identity of the newly allocated `*Client`. -/
def handleWS (parse : String → Option GEWISClaims) (wfail : Nat → Bool)
    (cfgRadioKey : String) (s : ChatState) (role : String) (f : Frame)
    (freshCid : Nat) : HsResult :=
  if role ≠ "user" ∧ role ≠ "radio" then
    ⟨s, [], none⟩
  else
    match f with
    | .readErr => ⟨s, [.rawCloseConn], none⟩
    | .raw none =>
        ⟨s, [.logWarn "Closing connection: invalid json", .rawCloseConn],
         none⟩
    | .raw (some first) =>
        match verifyGEWISToken parse first.token with
        | none =>
            ⟨s, [.logWarn "Closing connection: invalid token",
                 .rawCloseConn], none⟩
        | some claims =>
            if role = "radio" ∧
                (cfgRadioKey = "" ∨ first.radioKey ≠ cfgRadioKey) then
              ⟨s, [.rawCloseWrite 4103 "invalid radio key",
                   .logWarn "Closing connection: invalid radio key",
                   .rawCloseConn], none⟩
            else
              let client : Client :=
                ⟨freshCid, if role = "user" then .user else .radio,
                 Nat.repr claims.lidnr⟩
              let reg := registerClient wfail s client
              let dis :=
                if trimSpace first.content ≠ "" ∨ trimSpace first.toId ≠ "" then
                  dispatch wfail reg.1 client first claims
                else (reg.1, [])
              ⟨dis.1, reg.2 ++ dis.2, some client⟩

/-- Checks that every transport write in a trace (data frame, ping, or
close frame on a `Client`) happens while that client's `writeMu` is held.
`held` is the multiset of clients whose write lock is currently held. -/
def guardedFrom (held : List Nat) : List Action → Bool
  | [] => true
  | .acquireWriteMu c :: rest => guardedFrom (c :: held) rest
  | .releaseWriteMu c :: rest => guardedFrom (held.erase c) rest
  | .frameWrite c _ :: rest => held.contains c && guardedFrom held rest
  | .pingWrite c :: rest => held.contains c && guardedFrom held rest
  | .closeWrite c _ _ :: rest => held.contains c && guardedFrom held rest
  | _ :: rest => guardedFrom held rest

/-- A trace whose client-transport writes are all serialized through the
owning client's `writeMu`. -/
def allWritesGuarded (l : List Action) : Bool :=
  guardedFrom [] l

/-- Registry states reachable from `NewChat` through the operations the
code performs on the registry: registration (with supersession) and the
read-loop teardown.  Delivery (`forwardToRadios` / `forwardToUser`) never
mutates the registry, so it contributes no constructor. -/
inductive Reachable : ChatState → Prop where
  | init : Reachable NewChat
  | register (wfail : Nat → Bool) (s : ChatState) (c : Client) :
      Reachable s → Reachable (registerClient wfail s c).1
  | teardown (s : ChatState) (c : Client) :
      Reachable s → Reachable (unregister s c).1

/-- Every entry of the user map stores a user-role client under its own
id, and every member of the radio set has radio role. -/
def rolesConsistent (s : ChatState) : Prop :=
  (∀ p ∈ s.users, p.2.role = Role.user ∧ p.1 = p.2.id) ∧
  (∀ cl ∈ s.radios, cl.role = Role.radio)

/-- A write-failure oracle under which every write succeeds. -/
def wfNone : Nat → Bool := fun _ => false

/-- A write-failure oracle under which every write fails. -/
def wfAll : Nat → Bool := fun _ => true

/-- A token oracle (stand-in for the JWT library) that accepts every
non-empty token with fixed claims. -/
def parseAccept : String → Option GEWISClaims :=
  fun _ => some ⟨12345, "Alice", "User"⟩

/-- A token oracle that rejects every token. -/
def parseReject : String → Option GEWISClaims :=
  fun _ => none

/-! ## Helper lemmas -/

theorem filter_ne_filter_eq (l : List (String × Client)) (id : String) :
    (l.filter (fun p => p.1 != id)).filter (fun p => p.1 == id) = [] := by
  induction l with
  | nil => rfl
  | cons hd tl ih =>
      by_cases h : hd.1 = id
      · simp [List.filter_cons, h, ih]
      · simp [List.filter_cons, h, ih]

theorem count_frameWrite_flatMap (wfail : Nat → Bool) (out : OutgoingMessage)
    (cid : Nat) (l : List Client) :
    ((l.flatMap fun cl => (writeMessage wfail cl out).1).count
        (Action.frameWrite cid out)) = (l.map Client.cid).count cid := by
  induction l with
  | nil => rfl
  | cons hd tl ih =>
      rw [List.flatMap_cons, List.count_append, ih]
      by_cases h : hd.cid = cid <;>
        simp [writeMessage, List.count_cons, h, Nat.add_comm]

theorem guardedFrom_writeMessage (held : List Nat) (wfail : Nat → Bool)
    (cl : Client) (msg : OutgoingMessage) (rest : List Action) :
    guardedFrom held ((writeMessage wfail cl msg).1 ++ rest) =
      guardedFrom held rest := by
  simp [writeMessage, guardedFrom]

theorem guardedFrom_flatMapWrites (wfail : Nat → Bool) (msg : OutgoingMessage)
    (l : List Client) (held : List Nat) :
    guardedFrom held (l.flatMap fun cl => (writeMessage wfail cl msg).1) =
      true := by
  induction l with
  | nil => rfl
  | cons hd tl ih =>
      rw [List.flatMap_cons, guardedFrom_writeMessage]
      exact ih

theorem registerClient_state_user (wfail : Nat → Bool) (s : ChatState)
    (c : Client) (hc : c.role = Role.user) :
    (registerClient wfail s c).1 = insertUser s c.id c := by
  cases hl : lookupUser s c.id <;> simp [registerClient, hc, hl]

theorem registerClient_state_radio (wfail : Nat → Bool) (s : ChatState)
    (c : Client) (hc : c.role = Role.radio) :
    (registerClient wfail s c).1 = insertRadio s c := by
  simp [registerClient, hc]

theorem unregister_state_user (s : ChatState) (c : Client)
    (hc : c.role = Role.user) : (unregister s c).1 = deleteUser s c.id := by
  simp [unregister, hc]

theorem unregister_state_radio (s : ChatState) (c : Client)
    (hc : c.role = Role.radio) : (unregister s c).1 = deleteRadio s c := by
  simp [unregister, hc]

theorem rolesConsistent_insertUser (s : ChatState) (c : Client)
    (hc : c.role = Role.user) (h : rolesConsistent s) :
    rolesConsistent (insertUser s c.id c) := by
  obtain ⟨hu, hr⟩ := h
  refine ⟨?_, hr⟩
  intro p hp
  rcases List.mem_cons.1 hp with rfl | hmem
  · exact ⟨hc, rfl⟩
  · exact hu p (List.mem_of_mem_filter hmem)

theorem rolesConsistent_insertRadio (s : ChatState) (c : Client)
    (hc : c.role = Role.radio) (h : rolesConsistent s) :
    rolesConsistent (insertRadio s c) := by
  obtain ⟨hu, hr⟩ := h
  refine ⟨hu, ?_⟩
  intro cl hcl
  rcases List.mem_cons.1 hcl with rfl | hmem
  · exact hc
  · exact hr cl (List.mem_of_mem_filter hmem)

theorem rolesConsistent_deleteUser (s : ChatState) (id : String)
    (h : rolesConsistent s) : rolesConsistent (deleteUser s id) := by
  obtain ⟨hu, hr⟩ := h
  exact ⟨fun p hp => hu p (List.mem_of_mem_filter hp), hr⟩

theorem rolesConsistent_deleteRadio (s : ChatState) (c : Client)
    (h : rolesConsistent s) : rolesConsistent (deleteRadio s c) := by
  obtain ⟨hu, hr⟩ := h
  exact ⟨hu, fun cl hcl => hr cl (List.mem_of_mem_filter hcl)⟩

theorem reachable_rolesConsistent {s : ChatState} (h : Reachable s) :
    rolesConsistent s := by
  induction h with
  | init => exact ⟨by simp [NewChat], by simp [NewChat]⟩
  | register wfail s c _ ih =>
      cases hc : c.role with
      | user =>
          rw [registerClient_state_user wfail s c hc]
          exact rolesConsistent_insertUser s c hc ih
      | radio =>
          rw [registerClient_state_radio wfail s c hc]
          exact rolesConsistent_insertRadio s c hc ih
  | teardown s c _ ih =>
      cases hc : c.role with
      | user =>
          rw [unregister_state_user s c hc]
          exact rolesConsistent_deleteUser s c.id ih
      | radio =>
          rw [unregister_state_radio s c hc]
          exact rolesConsistent_deleteRadio s c ih

/-! ## Claims -/

/-- C2: the teardown path of `handleClient` is, contrary to the claim, not
idempotent with respect to supersession.  `delete(c.users, client.id)`
removes whatever entry currently sits at the key, so after user `77777`
reconnects (a second client registered under the same identity), running
the first connection's teardown deletes the second connection's registry
entry; a message addressed to `77777` afterwards is written to nobody.
This theorem evaluates the code at that failing input. -/
theorem C2_unregister_deletes_new_session :
    let c1 : Client := ⟨1, .user, "77777"⟩
    let c2 : Client := ⟨2, .user, "77777"⟩
    let s2 := (registerClient wfNone (registerClient wfNone NewChat c1).1 c2).1
    let s3 := (unregister s2 c1).1
    lookupUser s2 "77777" = some c2 ∧
    lookupUser s3 "77777" = none ∧
    (forwardToUser wfNone s3 "77777" ⟨"33333", "Bob", "Radio", "77777", "hi"⟩).2
      = [Action.lockRegistry, Action.unlockRegistry] := by
  decide

/-- C3: registering a second user connection under an identity that already
has a live registered connection sends the prior connection a close frame
with the reserved code 4100 (and only 4100 — no other close code appears in
the registration trace), closes it, and leaves the registry mapping the
identity to the new connection only. -/
theorem C3_supersession_close_4100 (wfail : Nat → Bool) (s : ChatState)
    (c prev : Client) (hrole : c.role = Role.user)
    (hprev : lookupUser s c.id = some prev) :
    Action.closeWrite prev.cid 4100 "replaced by new connection"
        ∈ (registerClient wfail s c).2 ∧
    Action.closeConn prev.cid ∈ (registerClient wfail s c).2 ∧
    (∀ cid code reason,
        Action.closeWrite cid code reason ∈ (registerClient wfail s c).2 →
        code = 4100) ∧
    lookupUser (registerClient wfail s c).1 c.id = some c ∧
    (registerClient wfail s c).1.users.filter (fun p => p.1 == c.id)
      = [(c.id, c)] := by
  simp only [registerClient, hrole, if_pos, hprev, writeControl, ctrlAction]
  refine ⟨by simp, by simp, ?_, ?_, ?_⟩
  · intro cid code reason hmem
    simp only [List.append_assoc, List.cons_append, List.nil_append,
      List.mem_cons, List.not_mem_nil, or_false] at hmem
    rcases hmem with h | h | h | h | h | h | h | h <;> simp_all
  · simp [lookupUser, insertUser, List.find?]
  · simp only [insertUser, List.filter_cons, beq_self_eq_true, if_pos]
    simp [filter_ne_filter_eq]

/-- Witness for `C3_supersession_close_4100` at a concrete registry. -/
theorem C3_supersession_close_4100_witness :
    let c2 : Client := ⟨2, .user, "77777"⟩
    let prev : Client := ⟨1, .user, "77777"⟩
    let s : ChatState := ⟨[("77777", prev)], []⟩
    Action.closeWrite 1 4100 "replaced by new connection"
        ∈ (registerClient wfNone s c2).2 ∧
    Action.closeConn 1 ∈ (registerClient wfNone s c2).2 ∧
    (∀ cid code reason,
        Action.closeWrite cid code reason ∈ (registerClient wfNone s c2).2 →
        code = 4100) ∧
    lookupUser (registerClient wfNone s c2).1 "77777" = some c2 ∧
    (registerClient wfNone s c2).1.users.filter (fun p => p.1 == "77777")
      = [("77777", c2)] :=
  C3_supersession_close_4100 wfNone ⟨[("77777", ⟨1, .user, "77777"⟩)], []⟩
    ⟨2, .user, "77777"⟩ ⟨1, .user, "77777"⟩ rfl rfl

/-- C4 counterexample: the claim that a failed delivery write evicts the
recipient from the registry and closes its transport is false.  With a
single registered radio whose transport write fails (`wfAll`), the
broadcast leaves the radio registered and emits no close for it: the code
discards the error of `writeMessage`. -/
theorem C4_write_failure_not_evicted :
    let r : Client := ⟨5, .radio, "99999"⟩
    let s : ChatState := ⟨[], [r]⟩
    let out : OutgoingMessage := ⟨"12345", "Alice", "User", "", "hi"⟩
    wfAll r.cid = true ∧
    (forwardToRadios wfAll s out).1 = s ∧
    (forwardToRadios wfAll s out).1.radios = [r] ∧
    (forwardToRadios wfAll s out).2.count (Action.closeConn r.cid) = 0 := by
  decide

/-- C4 (amended): delivery write failures are ignored entirely.  The
delivery functions leave the registry unchanged, never emit a close for
any connection, behave identically whether or not writes fail (so no
failure is ever propagated to the sender), and a failing recipient never
aborts delivery to the remaining recipients (every snapshotted radio still
gets its frame written). -/
theorem C4_write_failure_ignored (wfail : Nat → Bool) (s : ChatState)
    (msg : OutgoingMessage) (uid : String) :
    (forwardToRadios wfail s msg).1 = s ∧
    (∀ cid, Action.closeConn cid ∉ (forwardToRadios wfail s msg).2) ∧
    forwardToRadios wfail s msg = forwardToRadios wfNone s msg ∧
    (forwardToUser wfail s uid msg).1 = s ∧
    (∀ cid, Action.closeConn cid ∉ (forwardToUser wfail s uid msg).2) ∧
    forwardToUser wfail s uid msg = forwardToUser wfNone s uid msg ∧
    (∀ r ∈ s.radios,
        Action.frameWrite r.cid msg ∈ (forwardToRadios wfail s msg).2) := by
  refine ⟨rfl, ?_, rfl, ?_, ?_, ?_, ?_⟩
  · intro cid
    simp [forwardToRadios, writeMessage, List.mem_flatMap]
  · cases hl : lookupUser s uid <;> simp [forwardToUser, hl]
  · intro cid
    cases hl : lookupUser s uid <;> simp [forwardToUser, hl, writeMessage]
  · cases hl : lookupUser s uid <;> simp [forwardToUser, hl, writeMessage]
  · intro r hr
    simp only [forwardToRadios, List.mem_append, List.mem_flatMap]
    exact Or.inr ⟨r, hr, by simp [writeMessage]⟩

/-- Witness for `C4_write_failure_ignored` at a concrete registry. -/
theorem C4_write_failure_ignored_witness :
    let r : Client := ⟨5, .radio, "99999"⟩
    let s : ChatState := ⟨[], [r]⟩
    let out : OutgoingMessage := ⟨"12345", "Alice", "User", "", "hi"⟩
    Action.closeConn 5 ∉ (forwardToRadios wfAll s out).2 ∧
    Action.frameWrite 5 out ∈ (forwardToRadios wfAll s out).2 :=
  ⟨(C4_write_failure_ignored wfAll ⟨[], [⟨5, .radio, "99999"⟩]⟩
      ⟨"12345", "Alice", "User", "", "hi"⟩ "").2.1 5,
   (C4_write_failure_ignored wfAll ⟨[], [⟨5, .radio, "99999"⟩]⟩
      ⟨"12345", "Alice", "User", "", "hi"⟩ "").2.2.2.2.2.2
     ⟨5, .radio, "99999"⟩ (by simp)⟩

/-- C6 counterexample: in the supersession trace of `HandleWS`, the old
connection's eviction close write and socket close happen strictly between
the registry lock acquisition and release (the lock IS held across that
I/O), and the close of the old connection happens BEFORE the new entry is
installed in the user map — both parts of the claim fail on the code. -/
theorem C6_eviction_inside_lock :
    let c2 : Client := ⟨2, .user, "77777"⟩
    let s : ChatState := ⟨[("77777", ⟨1, .user, "77777"⟩)], []⟩
    let tr := (registerClient wfNone s c2).2
    tr.indexOf (Action.closeConn 1) <
        tr.indexOf (Action.mapInsertUser "77777" 2) ∧
    tr.indexOf Action.lockRegistry <
        tr.indexOf (Action.closeWrite 1 4100 "replaced by new connection") ∧
    tr.indexOf (Action.closeWrite 1 4100 "replaced by new connection") <
        tr.indexOf Action.unlockRegistry ∧
    tr.indexOf (Action.closeConn 1) < tr.indexOf Action.unlockRegistry := by
  decide

/-- C6 (amended): the supersession trace of the registration critical
section is exactly lock, eviction close write (serialized through the old
connection's write lock), old-socket close, new-entry installation,
unlock: the eviction notification and teardown occur inside the registry's
critical section and before the new entry becomes visible. -/
theorem C6_supersession_trace (wfail : Nat → Bool) (s : ChatState)
    (c prev : Client) (hrole : c.role = Role.user)
    (hprev : lookupUser s c.id = some prev) :
    (registerClient wfail s c).2 =
      [Action.lockRegistry,
       Action.acquireWriteMu prev.cid,
       Action.closeWrite prev.cid 4100 "replaced by new connection",
       Action.releaseWriteMu prev.cid,
       Action.logWarn "Closing replacing connection: replaced by new connection",
       Action.closeConn prev.cid,
       Action.mapInsertUser c.id c.cid,
       Action.unlockRegistry] := by
  simp [registerClient, hrole, hprev, writeControl, ctrlAction]

/-- Witness for `C6_supersession_trace` at a concrete registry. -/
theorem C6_supersession_trace_witness :
    (registerClient wfNone ⟨[("77777", ⟨1, .user, "77777"⟩)], []⟩
        ⟨2, .user, "77777"⟩).2 =
      [Action.lockRegistry,
       Action.acquireWriteMu 1,
       Action.closeWrite 1 4100 "replaced by new connection",
       Action.releaseWriteMu 1,
       Action.logWarn "Closing replacing connection: replaced by new connection",
       Action.closeConn 1,
       Action.mapInsertUser "77777" 2,
       Action.unlockRegistry] :=
  C6_supersession_trace wfNone ⟨[("77777", ⟨1, .user, "77777"⟩)], []⟩
    ⟨2, .user, "77777"⟩ ⟨1, .user, "77777"⟩ rfl rfl

/-- C5 counterexample: a frame that decodes successfully does not always
reach the dispatcher.  The frame `{token:"", content:"x"}` is valid JSON
(decode succeeds), but the read loop's per-message token verification
rejects the empty token — a check made by `verifyGEWISToken` itself before
any library call, so this holds even under a token oracle that accepts
everything — and the frame is dropped (`continue`), not dispatched. -/
theorem C5_decoded_frame_dropped :
    (loopStep parseAccept wfNone NewChat ⟨1, .user, "12345"⟩
        (.raw (some ⟨"", "", "x", ""⟩))).2.2 = StepOutcome.skipped ∧
    decide ((loopStep parseAccept wfNone NewChat ⟨1, .user, "12345"⟩
        (.raw (some ⟨"", "", "x", ""⟩))).2.2 = StepOutcome.dispatched)
      = false := by
  decide

/-- C5 (amended): in the steady-state read loop, a frame that decodes
successfully AND whose token passes per-message verification is
dispatched; a decode failure or a token-verification failure is logged and
dropped and the loop continues with the remaining frames. -/
theorem C5_loop_decode_auth_dispatch (parse : String → Option GEWISClaims)
    (wfail : Nat → Bool) (s : ChatState) (client : Client)
    (msg : IncomingMessage) (rest : List Frame) :
    (loopStep parse wfail s client (.raw (some msg)) =
      match verifyGEWISToken parse msg.token with
      | some claims =>
          ((dispatch wfail s client msg claims).1,
           (dispatch wfail s client msg claims).2, StepOutcome.dispatched)
      | none => (s, [.logWarn "invalid GEWIS token"], StepOutcome.skipped)) ∧
    loopStep parse wfail s client (.raw none)
      = (s, [.logWarn "invalid json"], StepOutcome.skipped) ∧
    handleClient parse wfail client s (Frame.raw none :: rest)
      = ((handleClient parse wfail client s rest).1,
         Action.logWarn "invalid json"
           :: (handleClient parse wfail client s rest).2) ∧
    (verifyGEWISToken parse msg.token = none →
      handleClient parse wfail client s (Frame.raw (some msg) :: rest)
        = ((handleClient parse wfail client s rest).1,
           Action.logWarn "invalid GEWIS token"
             :: (handleClient parse wfail client s rest).2)) := by
  refine ⟨?_, rfl, ?_, ?_⟩
  · cases hv : verifyGEWISToken parse msg.token <;> simp [loopStep, hv]
  · simp [handleClient, loopStep]
  · intro hv
    simp [handleClient, loopStep, hv]

/-- Witness for `C5_loop_decode_auth_dispatch` at concrete inputs. -/
theorem C5_loop_decode_auth_dispatch_witness :
    verifyGEWISToken parseAccept "" = none ∧
    handleClient parseAccept wfNone ⟨1, .user, "12345"⟩ NewChat
        [Frame.raw (some ⟨"", "", "x", ""⟩)]
      = ((handleClient parseAccept wfNone ⟨1, .user, "12345"⟩ NewChat []).1,
         Action.logWarn "invalid GEWIS token"
           :: (handleClient parseAccept wfNone ⟨1, .user, "12345"⟩
                 NewChat []).2) :=
  ⟨rfl,
   (C5_loop_decode_auth_dispatch parseAccept wfNone NewChat
      ⟨1, .user, "12345"⟩ ⟨"", "", "x", ""⟩ []).2.2.2 rfl⟩

/-- C1 counterexample: the broadcast `from` field does not always equal
the sender connection's registered identity.  The read loop dispatches
each message with the claims of THAT message's token, never comparing them
to the registered id.  Here user `111` completes a valid handshake (token
"tokA", lidnr 111, registered as id "111") and then sends a
content-bearing message under a different valid token ("tokB", lidnr
222): the registered radio receives exactly one frame whose `from` is
"222", not the registered identity "111".  Additionally, a content-bearing
message whose token fails verification ("tokC") produces zero frames, so
"exactly one" also fails in that reachable case. -/
theorem C1_from_differs_from_registered_identity :
    let parse : String → Option GEWISClaims := fun t =>
      if t = "tokA" then some ⟨111, "Alice", "User"⟩
      else if t = "tokB" then some ⟨222, "Mallory", "Other"⟩
      else none
    let radio : Client := ⟨5, .radio, "99999"⟩
    let hs := handleWS parse wfNone "key" ⟨[], [radio]⟩ "user"
        (.raw (some ⟨"tokA", "", "", ""⟩)) 1
    let out := mkOutgoing ⟨222, "Mallory", "Other"⟩ ⟨"tokB", "", "hi", ""⟩
    hs.client = some ⟨1, .user, "111"⟩ ∧
    lookupUser hs.state "111" = some ⟨1, .user, "111"⟩ ∧
    (loopStep parse wfNone hs.state ⟨1, .user, "111"⟩
        (.raw (some ⟨"tokB", "", "hi", ""⟩))).2.1.count
        (Action.frameWrite 5 out) = 1 ∧
    out.fromId = "222" ∧
    decide (out.fromId = Client.id ⟨1, .user, "111"⟩) = false ∧
    (loopStep parse wfNone hs.state ⟨1, .user, "111"⟩
        (.raw (some ⟨"tokC", "", "hi", ""⟩))).2.1
      = [Action.logWarn "invalid GEWIS token"] := by
  decide

/-- C1 (amended): for a user-role connection, a content-bearing message
whose token passes the per-message verification is broadcast so that every
radio registered at that moment receives exactly one frame; the frame's
`from` and name fields are taken from the verified claims of that
message's token (they are not compared against the connection's registered
identity, so they can differ from it when the client presents a different
valid token), and its `content` equals the sent content.  The `from`/name
equalities hold for every incoming message `msg`, so they are never taken
from unverified client-supplied message fields.  A content-bearing message
whose token fails verification produces no frames at all. -/
theorem C1_broadcast_message_token_identity
    (parse : String → Option GEWISClaims) (wfail : Nat → Bool)
    (s : ChatState) (client : Client) (msg : IncomingMessage)
    (claims : GEWISClaims)
    (hrole : client.role = Role.user)
    (hv : verifyGEWISToken parse msg.token = some claims)
    (hnd : (s.radios.map Client.cid).Nodup) :
    (∀ r ∈ s.radios,
      ((loopStep parse wfail s client (.raw (some msg))).2.1.count
          (Action.frameWrite r.cid (mkOutgoing claims msg)) = 1)) ∧
    (mkOutgoing claims msg).fromId = Nat.repr claims.lidnr ∧
    (mkOutgoing claims msg).givenName = claims.givenName ∧
    (mkOutgoing claims msg).familyName = claims.familyName ∧
    (mkOutgoing claims msg).content = msg.content ∧
    (∀ bad : IncomingMessage, verifyGEWISToken parse bad.token = none →
      (loopStep parse wfail s client (.raw (some bad))).2.1
        = [Action.logWarn "invalid GEWIS token"]) := by
  refine ⟨?_, rfl, rfl, rfl, rfl, ?_⟩
  · intro r hr
    have hcnt : (s.radios.map Client.cid).count r.cid = 1 :=
      List.count_eq_one_of_mem hnd (List.mem_map_of_mem _ hr)
    simp [loopStep, hv, dispatch, hrole, forwardToRadios,
      List.count_append, count_frameWrite_flatMap, hcnt]
  · intro bad hbad
    simp [loopStep, hbad]

/-- Witness for `C1_broadcast_message_token_identity`: user `111` sends
"hi radio" under the same token it handshook with, while radio `99999` is
registered. -/
theorem C1_broadcast_message_token_identity_witness :
    verifyGEWISToken
        (fun t => if t = "tokA" then some ⟨111, "Alice", "User"⟩ else none)
        "tokA" = some ⟨111, "Alice", "User"⟩ ∧
    ((loopStep
        (fun t => if t = "tokA" then some ⟨111, "Alice", "User"⟩ else none)
        wfNone ⟨[("111", ⟨1, .user, "111"⟩)], [⟨5, .radio, "99999"⟩]⟩
        ⟨1, .user, "111"⟩ (.raw (some ⟨"tokA", "", "hi radio", ""⟩))).2.1.count
        (Action.frameWrite 5
          (mkOutgoing ⟨111, "Alice", "User"⟩ ⟨"tokA", "", "hi radio", ""⟩))
        = 1) :=
  ⟨by decide,
   (C1_broadcast_message_token_identity
      (fun t => if t = "tokA" then some ⟨111, "Alice", "User"⟩ else none)
      wfNone ⟨[("111", ⟨1, .user, "111"⟩)], [⟨5, .radio, "99999"⟩]⟩
      ⟨1, .user, "111"⟩ ⟨"tokA", "", "hi radio", ""⟩ ⟨111, "Alice", "User"⟩
      rfl (by decide) (by decide)).1 ⟨5, .radio, "99999"⟩ (by decide)⟩

/-- C7: in every registry state reachable through the code's registry
operations (registration with supersession, teardown), a connection never
appears in both the user map and the radio set, and it appears in the user
map under at most one key. -/
theorem C7_connection_in_one_structure (s : ChatState) (h : Reachable s)
    (c : Client) :
    ¬((∃ k, (k, c) ∈ s.users) ∧ c ∈ s.radios) ∧
    (∀ k₁ k₂, (k₁, c) ∈ s.users → (k₂, c) ∈ s.users → k₁ = k₂) := by
  obtain ⟨hu, hr⟩ := reachable_rolesConsistent h
  constructor
  · rintro ⟨⟨k, hk⟩, hrad⟩
    have h1 := (hu (k, c) hk).1
    have h2 := hr c hrad
    rw [h1] at h2
    simp at h2
  · intro k₁ k₂ hm₁ hm₂
    have e1 := (hu (k₁, c) hm₁).2
    have e2 := (hu (k₂, c) hm₂).2
    simp only at e1 e2
    rw [e1, e2]

/-- Witness for `C7_connection_in_one_structure` at a reachable state with
one registered user. -/
theorem C7_connection_in_one_structure_witness :
    ¬((∃ k, (k, (⟨1, .user, "12345"⟩ : Client))
          ∈ (registerClient wfNone NewChat ⟨1, .user, "12345"⟩).1.users) ∧
      (⟨1, .user, "12345"⟩ : Client)
          ∈ (registerClient wfNone NewChat ⟨1, .user, "12345"⟩).1.radios) :=
  (C7_connection_in_one_structure
    (registerClient wfNone NewChat ⟨1, .user, "12345"⟩).1
    (Reachable.register wfNone NewChat ⟨1, .user, "12345"⟩ Reachable.init)
    ⟨1, .user, "12345"⟩).1

/-- C8: a handshake whose first frame is malformed JSON or whose token
fails verification closes the transport and leaves the registry exactly as
it was — no client is registered, and a lookup for any identity (in
particular the claimed one) gives the same answer as before the
handshake. -/
theorem C8_failed_handshake_no_registry_entry
    (parse : String → Option GEWISClaims) (wfail : Nat → Bool)
    (key : String) (s : ChatState) (role : String) (f : Frame) (cid : Nat)
    (hrole : role = "user" ∨ role = "radio")
    (hbad : f = Frame.raw none ∨
      ∃ msg, f = Frame.raw (some msg) ∧
        verifyGEWISToken parse msg.token = none) :
    (handleWS parse wfail key s role f cid).state = s ∧
    (handleWS parse wfail key s role f cid).client = none ∧
    Action.rawCloseConn ∈ (handleWS parse wfail key s role f cid).acts ∧
    (∀ id, lookupUser (handleWS parse wfail key s role f cid).state id
        = lookupUser s id) := by
  have hcond : ¬(role ≠ "user" ∧ role ≠ "radio") := by
    rcases hrole with rfl | rfl <;> simp
  rcases hbad with rfl | ⟨msg, rfl, hv⟩
  · simp [handleWS, hcond]
  · simp [handleWS, hcond, hv]

/-- Witness for `C8_failed_handshake_no_registry_entry`: a user handshake
whose first frame carries an empty token (rejected by `verifyGEWISToken`
before the library is consulted). -/
theorem C8_failed_handshake_no_registry_entry_witness :
    (handleWS parseAccept wfNone "key" NewChat "user"
        (Frame.raw (some ⟨"", "", "", ""⟩)) 1).state = NewChat ∧
    (handleWS parseAccept wfNone "key" NewChat "user"
        (Frame.raw (some ⟨"", "", "", ""⟩)) 1).client = none ∧
    Action.rawCloseConn ∈ (handleWS parseAccept wfNone "key" NewChat "user"
        (Frame.raw (some ⟨"", "", "", ""⟩)) 1).acts :=
  by
    have h := C8_failed_handshake_no_registry_entry parseAccept wfNone "key"
      NewChat "user" (Frame.raw (some ⟨"", "", "", ""⟩)) 1 (Or.inl rfl)
      (Or.inr ⟨⟨"", "", "", ""⟩, rfl, rfl⟩)
    exact ⟨h.1, h.2.1, h.2.2.1⟩

/-- C9: every transport write the system performs on a `Client` — the
keepalive ping, the dispatcher-driven message forwarding, and control
writes such as the 4100 eviction close during supersession — is bracketed
by acquiring and releasing that client's `writeMu` (checked by
`allWritesGuarded` over the emitted traces).  The teardown trace contains
no transport write at all.  (The 4103 rejection close happens before any
`Client` exists and is out of scope of the per-connection write lock.) -/
theorem C9_transport_writes_serialized (wfail : Nat → Bool) (s : ChatState)
    (client : Client) (msg : IncomingMessage) (claims : GEWISClaims)
    (c : Client) :
    allWritesGuarded (dispatch wfail s client msg claims).2 = true ∧
    allWritesGuarded (pingTick wfail client).1 = true ∧
    allWritesGuarded (registerClient wfail s c).2 = true ∧
    allWritesGuarded (unregister s c).2 = true := by
  refine ⟨?_, ?_, ?_, ?_⟩
  · cases hc : client.role with
    | user =>
        simp [dispatch, hc, forwardToRadios, allWritesGuarded, guardedFrom,
          guardedFrom_flatMapWrites]
    | radio =>
        by_cases ht : (mkOutgoing claims msg).toId = ""
        · simp [dispatch, hc, ht, allWritesGuarded, guardedFrom]
        · cases hl : lookupUser s (mkOutgoing claims msg).toId <;>
            simp [dispatch, hc, ht, forwardToUser, hl, writeMessage,
              allWritesGuarded, guardedFrom]
  · simp [pingTick, writeControl, ctrlAction, allWritesGuarded, guardedFrom]
  · cases hcr : c.role with
    | user =>
        cases hl : lookupUser s c.id <;>
          simp [registerClient, hcr, hl, writeControl, ctrlAction,
            allWritesGuarded, guardedFrom]
    | radio => simp [registerClient, hcr, allWritesGuarded, guardedFrom]
  · cases hcr : c.role <;> simp [unregister, hcr, allWritesGuarded, guardedFrom]

/-- C10: a radio-role handshake is admitted only when the configured
`RADIOChatKey` is non-empty and the client's `radioKey` equals it exactly;
with an empty configured key every radio handshake — including one sending
an empty `radioKey` — is rejected with the reserved close code 4103. -/
theorem C10_radio_admission_key (parse : String → Option GEWISClaims)
    (wfail : Nat → Bool) (key : String) (s : ChatState)
    (first : IncomingMessage) (claims : GEWISClaims) (cid : Nat)
    (hv : verifyGEWISToken parse first.token = some claims) :
    ((key = "" ∨ first.radioKey ≠ key) →
      (handleWS parse wfail key s "radio" (.raw (some first)) cid).client
          = none ∧
      Action.rawCloseWrite 4103 "invalid radio key"
          ∈ (handleWS parse wfail key s "radio" (.raw (some first)) cid).acts ∧
      (handleWS parse wfail key s "radio" (.raw (some first)) cid).state
          = s) ∧
    ((key ≠ "" ∧ first.radioKey = key) →
      (handleWS parse wfail key s "radio" (.raw (some first)) cid).client
          = some ⟨cid, Role.radio, Nat.repr claims.lidnr⟩) := by
  constructor
  · intro hrej
    simp [handleWS, hv, hrej]
  · rintro ⟨hk, hr⟩
    simp [handleWS, hv, hk, hr]

/-- Witness for `C10_radio_admission_key`: empty configured key, client
also sends the empty key — rejected with 4103. -/
theorem C10_radio_admission_key_witness :
    (handleWS parseAccept wfNone "" NewChat "radio"
        (.raw (some ⟨"tok", "", "", ""⟩)) 7).client = none ∧
    Action.rawCloseWrite 4103 "invalid radio key"
        ∈ (handleWS parseAccept wfNone "" NewChat "radio"
            (.raw (some ⟨"tok", "", "", ""⟩)) 7).acts ∧
    (handleWS parseAccept wfNone "" NewChat "radio"
        (.raw (some ⟨"tok", "", "", ""⟩)) 7).state = NewChat :=
  (C10_radio_admission_key parseAccept wfNone "" NewChat
      ⟨"tok", "", "", ""⟩ ⟨12345, "Alice", "User"⟩ 7 rfl).1 (Or.inl rfl)

end RadioGaga
